import Mathlib

/-!
Verification of the carbon-calc core: a shallow embedding of the
calculator (js/calculator.js), configuration (js/config.js) and routes
database (routes-data.js), together with theorems settling the spec's
claims about distance lookup, emission comparison, savings and
carbon-credit pricing.

JavaScript numbers are modelled by `JsNum`: a finite rational together
with the special values `Infinity`, `-Infinity` and `NaN`.  The numeric
literals of the source are exact decimals, so finite arithmetic is
modelled exactly by `ℚ`; the IEEE special-value rules for the operations
the source performs are spelled out case by case (JavaScript `+0` is the
only zero used by the source, so a single zero suffices).
-/

set_option maxRecDepth 4000

namespace CarbonCalc

/-- A JavaScript number: finite value, `Infinity`, `-Infinity`, or `NaN`. -/
inductive JsNum where
  | num (q : ℚ)
  | inf
  | ninf
  | nan
deriving DecidableEq

namespace JsNum

/-- JavaScript multiplication `x * y` (IEEE rules, single zero). -/
def mul : JsNum → JsNum → JsNum
  | nan, _ => nan
  | _, nan => nan
  | num a, num b => num (a * b)
  | num a, inf => if 0 < a then inf else if a < 0 then ninf else nan
  | num a, ninf => if 0 < a then ninf else if a < 0 then inf else nan
  | inf, num b => if 0 < b then inf else if b < 0 then ninf else nan
  | ninf, num b => if 0 < b then ninf else if b < 0 then inf else nan
  | inf, inf => inf
  | inf, ninf => ninf
  | ninf, inf => ninf
  | ninf, ninf => inf

/-- JavaScript division `x / y` (IEEE rules; dividing a nonzero finite
value by `+0` gives a signed infinity, `0 / 0` gives `NaN`). -/
def div : JsNum → JsNum → JsNum
  | nan, _ => nan
  | _, nan => nan
  | num a, num b =>
      if b = 0 then (if a = 0 then nan else if 0 < a then inf else ninf)
      else num (a / b)
  | num _, inf => num 0
  | num _, ninf => num 0
  | inf, num b => if 0 ≤ b then inf else ninf
  | ninf, num b => if 0 ≤ b then ninf else inf
  | inf, inf => nan
  | inf, ninf => nan
  | ninf, inf => nan
  | ninf, ninf => nan

/-- JavaScript addition `x + y`. -/
def add : JsNum → JsNum → JsNum
  | nan, _ => nan
  | _, nan => nan
  | num a, num b => num (a + b)
  | num _, inf => inf
  | num _, ninf => ninf
  | inf, num _ => inf
  | ninf, num _ => ninf
  | inf, inf => inf
  | ninf, ninf => ninf
  | inf, ninf => nan
  | ninf, inf => nan

/-- JavaScript subtraction `x - y`. -/
def sub : JsNum → JsNum → JsNum
  | nan, _ => nan
  | _, nan => nan
  | num a, num b => num (a - b)
  | num _, inf => ninf
  | num _, ninf => inf
  | inf, num _ => inf
  | ninf, num _ => ninf
  | inf, inf => nan
  | ninf, ninf => nan
  | inf, ninf => inf
  | ninf, inf => ninf

/-- `Math.round`: round half towards positive infinity; fixes the
special values. -/
def round : JsNum → JsNum
  | num q => num (⌊q + 1/2⌋ : ℤ)
  | inf => inf
  | ninf => ninf
  | nan => nan

theorem mul_nan (x : JsNum) : x.mul nan = nan := by cases x <;> rfl

theorem nan_mul (x : JsNum) : JsNum.mul nan x = nan := by cases x <;> rfl

end JsNum

/-- The source's ubiquitous `Math.round(x * 100) / 100` (round to two
decimal places). -/
def round2 (x : JsNum) : JsNum := (JsNum.round (x.mul (.num 100))).div (.num 100)

/-- Exact rational counterpart of `Math.round(q * 100) / 100`. -/
def round2Q (q : ℚ) : ℚ := ((⌊q * 100 + 1/2⌋ : ℤ) : ℚ) / 100

theorem round2_num (q : ℚ) : round2 (.num q) = .num (round2Q q) := by
  simp [round2, JsNum.mul, JsNum.round, JsNum.div, round2Q]

theorem round2_nan : round2 .nan = .nan := rfl

theorem round2_inf : round2 .inf = .inf := by
  norm_num [round2, JsNum.mul, JsNum.round, JsNum.div]

theorem round2_ninf : round2 .ninf = .ninf := by
  norm_num [round2, JsNum.mul, JsNum.round, JsNum.div]

theorem round2Q_mono {a b : ℚ} (h : a ≤ b) : round2Q a ≤ round2Q b := by
  unfold round2Q
  have hf : (⌊a * 100 + 1/2⌋ : ℤ) ≤ ⌊b * 100 + 1/2⌋ := Int.floor_mono (by linarith)
  have : ((⌊a * 100 + 1/2⌋ : ℤ) : ℚ) ≤ ((⌊b * 100 + 1/2⌋ : ℤ) : ℚ) := by exact_mod_cast hf
  linarith

theorem round2Q_zero : round2Q 0 = 0 := by
  unfold round2Q
  rw [show (0 : ℚ) * 100 + 1/2 = 1/2 by norm_num]
  rw [show (⌊(1/2 : ℚ)⌋ : ℤ) = 0 by rw [Int.floor_eq_iff] <;> norm_num]
  norm_num

theorem round2Q_pos_iff {q : ℚ} : 0 < round2Q q ↔ 1/200 ≤ q := by
  unfold round2Q
  rw [div_pos_iff]
  constructor
  · rintro (⟨h, -⟩ | ⟨-, h⟩)
    · have h1 : (1 : ℤ) ≤ ⌊q * 100 + 1/2⌋ := by exact_mod_cast h
      have := Int.le_floor.mp h1
      push_cast at this
      linarith
    · norm_num at h
  · intro h
    left
    constructor
    · have h1 : (1 : ℤ) ≤ ⌊q * 100 + 1/2⌋ := Int.le_floor.mpr (by push_cast; linarith)
      exact_mod_cast lt_of_lt_of_le Int.zero_lt_one (by exact_mod_cast h1)
    · norm_num

/-- `CONFIG.EMISSION_FACTORS` from js/config.js: kg CO₂ per km, in the
object's insertion (enumeration) order. -/
def EMISSION_FACTORS : List (String × ℚ) :=
  [("bicycle", 0), ("car", 0.12), ("bus", 0.089), ("truck", 0.96)]

namespace CONFIG

namespace CARBON_CREDIT

/-- `CONFIG.CARBON_CREDIT.KG_PER_CREDIT`: 1 credit = 1000 kg CO₂. -/
def KG_PER_CREDIT : ℚ := 1000

/-- `CONFIG.CARBON_CREDIT.PRICE_MIN_BRL`. -/
def PRICE_MIN_BRL : ℚ := 50

/-- `CONFIG.CARBON_CREDIT.PRICE_MAX_BRL`. -/
def PRICE_MAX_BRL : ℚ := 150

end CARBON_CREDIT

end CONFIG

/-- Stable insertion of `x` into `l`: `x` goes before the first element
`y` with `le x y`. -/
def insertSorted (le : α → α → Bool) (x : α) : List α → List α
  | [] => [x]
  | y :: ys => if le x y then x :: y :: ys else y :: insertSorted le x ys

/-- Stable sort, modelling `Array.prototype.sort` with a consistent
comparator `c`: `le a b` stands for `c(a, b) <= 0` (ECMAScript sort is
stable and any stable sort yields the same result for a consistent
comparator). -/
def insertionSort (le : α → α → Bool) : List α → List α
  | [] => []
  | x :: xs => insertSorted le x (insertionSort le xs)

theorem mem_insertSorted {le : α → α → Bool} {x y : α} {l : List α} :
    y ∈ insertSorted le x l ↔ y = x ∨ y ∈ l := by
  induction l with
  | nil => simp [insertSorted]
  | cons a l ih =>
    simp only [insertSorted]
    split
    · simp
    · simp [ih]
      tauto

theorem mem_insertionSort {le : α → α → Bool} {l : List α} {y : α} :
    y ∈ insertionSort le l ↔ y ∈ l := by
  induction l with
  | nil => simp [insertionSort]
  | cons a l ih => simp [insertionSort, mem_insertSorted, ih]

namespace Calculator

/-- `Calculator.calculateEmission(distanceKm, transportMode)`: looks the
mode up in `CONFIG.EMISSION_FACTORS` (a missing key is JavaScript
`undefined`, and `number * undefined` is `NaN`), multiplies by the
distance and rounds to two decimals. -/
def calculateEmission (distanceKm : JsNum) (transportMode : String) : JsNum :=
  let factor : JsNum :=
    match EMISSION_FACTORS.lookup transportMode with
    | some f => .num f
    | none => .nan
  round2 (distanceKm.mul factor)

/-- One element of the array built by `calculateAllModes`. -/
structure ModeEntry where
  mode : String
  emission : JsNum
  percentageVsCar : JsNum
deriving DecidableEq

/-- The comparator `(a, b) => a.emission - b.emission` of
`calculateAllModes`, as the predicate "compares less-or-equal" used by
the stable sort. -/
def sortLe (x y : JsNum) : Bool :=
  match x.sub y with
  | .num c => decide (c ≤ 0)
  | .ninf => true
  | .inf => false
  | .nan => true

/-- `Calculator.calculateAllModes(distanceKm)`: per-mode emissions with
percentage versus the car baseline, sorted ascending by emission. -/
def calculateAllModes (distanceKm : JsNum) : List ModeEntry :=
  let carEmission := calculateEmission distanceKm "car"
  let results := EMISSION_FACTORS.map (fun p =>
    let emission := calculateEmission distanceKm p.1
    let percentageVsCar := (emission.div carEmission).mul (.num 100)
    { mode := p.1, emission := emission, percentageVsCar := round2 percentageVsCar })
  insertionSort (fun a b => sortLe a.emission b.emission) results

/-- Result record of `calculateSavings`. -/
structure SavingsResult where
  savedKg : JsNum
  percentage : JsNum
deriving DecidableEq

/-- `Calculator.calculateSavings(emission, baselineEmission)`. -/
def calculateSavings (emission baselineEmission : JsNum) : SavingsResult :=
  let savedKg := baselineEmission.sub emission
  let percentage := (savedKg.div baselineEmission).mul (.num 100)
  { savedKg := round2 savedKg, percentage := round2 percentage }

/-- `Calculator.calculateCarbonCredits(emissionKg)`. -/
def calculateCarbonCredits (emissionKg : JsNum) : JsNum :=
  round2 (emissionKg.div (.num CONFIG.CARBON_CREDIT.KG_PER_CREDIT))

/-- Result record of `estimateCreditPrice`. -/
structure PriceEstimate where
  min : JsNum
  max : JsNum
  average : JsNum
deriving DecidableEq

/-- `Calculator.estimateCreditPrice(credits)`: the average is computed
from the unrounded min and max, and each field is rounded on its own. -/
def estimateCreditPrice (credits : JsNum) : PriceEstimate :=
  let min := credits.mul (.num CONFIG.CARBON_CREDIT.PRICE_MIN_BRL)
  let max := credits.mul (.num CONFIG.CARBON_CREDIT.PRICE_MAX_BRL)
  let average := (min.add max).div (.num 2)
  { min := round2 min, max := round2 max, average := round2 average }

end Calculator

theorem round2Q_eq (q : ℚ) (n : ℤ) (h1 : (n : ℚ) ≤ q * 100 + 1/2)
    (h2 : q * 100 + 1/2 < (n : ℚ) + 1) : round2Q q = (n : ℚ) / 100 := by
  unfold round2Q
  have h : (⌊q * 100 + 1/2⌋ : ℤ) = n := Int.floor_eq_iff.mpr ⟨h1, by push_cast; linarith⟩
  rw [h]

theorem calculateEmission_num (d : ℚ) (m : String) (f : ℚ)
    (h : EMISSION_FACTORS.lookup m = some f) :
    Calculator.calculateEmission (.num d) m = .num (round2Q (d * f)) := by
  simp [Calculator.calculateEmission, h, JsNum.mul, round2_num]

theorem calculateEmission_zero (m : String) (f : ℚ)
    (h : EMISSION_FACTORS.lookup m = some f) :
    Calculator.calculateEmission (.num 0) m = .num 0 := by
  rw [calculateEmission_num 0 m f h, zero_mul, round2Q_zero]

/-- Both values are finite and the first is at most the second. -/
def finLe (x y : JsNum) : Prop := ∃ a b : ℚ, x = .num a ∧ y = .num b ∧ a ≤ b

/-- C9: for every distance (any JavaScript number) and every transport
mode string with no entry in `CONFIG.EMISSION_FACTORS`,
`Calculator.calculateEmission` returns `NaN`: the lookup yields
`undefined`, `distance * undefined` is `NaN`, and no exception or
explicit error signal is produced (the function is total). -/
theorem c9_unknown_mode_nan (d : JsNum) (mode : String)
    (h : EMISSION_FACTORS.lookup mode = none) :
    Calculator.calculateEmission d mode = .nan := by
  simp [Calculator.calculateEmission, h, JsNum.mul_nan, round2_nan]

/-- Witness for C9: the mode "airplane" is absent from the factor table
and `calculateEmission(100, "airplane")` evaluates to `NaN`. -/
theorem c9_witness :
    EMISSION_FACTORS.lookup "airplane" = none ∧
    Calculator.calculateEmission (.num 100) "airplane" = .nan :=
  ⟨rfl, c9_unknown_mode_nan (.num 100) "airplane" rfl⟩

/-- C10: for every finite emission `q`, `calculateSavings(q, 0)` returns
(no error): `savedKg` is the negated emission rounded to two decimals,
and `percentage` is `-Infinity` when `q > 0` and `NaN` when `q = 0`. -/
theorem c10_zero_baseline_savings (q : ℚ) :
    (Calculator.calculateSavings (.num q) (.num 0)).savedKg = .num (round2Q (-q)) ∧
    (0 < q → (Calculator.calculateSavings (.num q) (.num 0)).percentage = .ninf) ∧
    (q = 0 → (Calculator.calculateSavings (.num q) (.num 0)).percentage = .nan) := by
  unfold Calculator.calculateSavings
  refine ⟨?_, ?_, ?_⟩
  · simp [JsNum.sub, round2_num, zero_sub]
  · intro hq
    have h1 : q ≠ 0 := hq.ne'
    have h2 : ¬ q < 0 := not_lt.mpr hq.le
    norm_num [JsNum.sub, JsNum.div, JsNum.mul, h1, h2, round2_ninf]
  · rintro rfl
    simp [JsNum.sub, JsNum.div, JsNum.mul, round2_nan]

/-- Witness for C10 at emissions 1 and 0. -/
theorem c10_witness :
    (Calculator.calculateSavings (.num 1) (.num 0)).savedKg = .num (-1) ∧
    (Calculator.calculateSavings (.num 1) (.num 0)).percentage = .ninf ∧
    (Calculator.calculateSavings (.num 0) (.num 0)).percentage = .nan := by
  refine ⟨?_, (c10_zero_baseline_savings 1).2.1 (by norm_num),
    (c10_zero_baseline_savings 0).2.2 rfl⟩
  rw [(c10_zero_baseline_savings 1).1,
    round2Q_eq (-1) (-100) (by norm_num) (by norm_num)]
  norm_num

theorem calculateCarbonCredits_num (e : ℚ) :
    Calculator.calculateCarbonCredits (.num e) = .num (round2Q (e / 1000)) := by
  norm_num [Calculator.calculateCarbonCredits, CONFIG.CARBON_CREDIT.KG_PER_CREDIT,
    JsNum.div, round2_num]

/-- C7: for every non-negative emission, the price estimate of the
credits computed for it satisfies min ≤ average ≤ max (each field
rounded independently from its own unrounded value). -/
theorem c7_price_min_le_average_le_max (e : ℚ) (he : 0 ≤ e) :
    finLe (Calculator.estimateCreditPrice (Calculator.calculateCarbonCredits (.num e))).min
          (Calculator.estimateCreditPrice (Calculator.calculateCarbonCredits (.num e))).average ∧
    finLe (Calculator.estimateCreditPrice (Calculator.calculateCarbonCredits (.num e))).average
          (Calculator.estimateCreditPrice (Calculator.calculateCarbonCredits (.num e))).max := by
  rw [calculateCarbonCredits_num]
  set c := round2Q (e / 1000) with hc
  have hc0 : 0 ≤ c := by
    have h := round2Q_mono (show (0 : ℚ) ≤ e / 1000 by positivity)
    rwa [round2Q_zero] at h
  have hmin : (Calculator.estimateCreditPrice (.num c)).min = .num (round2Q (c * 50)) := by
    simp [Calculator.estimateCreditPrice, CONFIG.CARBON_CREDIT.PRICE_MIN_BRL,
      JsNum.mul, round2_num]
  have hmax : (Calculator.estimateCreditPrice (.num c)).max = .num (round2Q (c * 150)) := by
    simp [Calculator.estimateCreditPrice, CONFIG.CARBON_CREDIT.PRICE_MAX_BRL,
      JsNum.mul, round2_num]
  have havg : (Calculator.estimateCreditPrice (.num c)).average =
      .num (round2Q ((c * 50 + c * 150) / 2)) := by
    norm_num [Calculator.estimateCreditPrice, CONFIG.CARBON_CREDIT.PRICE_MIN_BRL,
      CONFIG.CARBON_CREDIT.PRICE_MAX_BRL, JsNum.mul, JsNum.add, JsNum.div, round2_num]
  exact ⟨⟨_, _, hmin, havg, round2Q_mono (by linarith)⟩,
    ⟨_, _, havg, hmax, round2Q_mono (by linarith)⟩⟩

/-- Witness for C7 at 1000 kg. -/
theorem c7_witness :
    (0 : ℚ) ≤ 1000 ∧
    (finLe (Calculator.estimateCreditPrice (Calculator.calculateCarbonCredits (.num 1000))).min
           (Calculator.estimateCreditPrice (Calculator.calculateCarbonCredits (.num 1000))).average ∧
     finLe (Calculator.estimateCreditPrice (Calculator.calculateCarbonCredits (.num 1000))).average
           (Calculator.estimateCreditPrice (Calculator.calculateCarbonCredits (.num 1000))).max) :=
  ⟨by norm_num, c7_price_min_le_average_le_max 1000 (by norm_num)⟩

/-- Counterexample to C8 as stated: with emission 0 and nonzero baseline
1/1000 we have emission < baseline, yet the returned `savedKg` is 0 (the
difference 0.001 rounds to 0.00 at two decimals), not strictly
positive. -/
theorem c8_counterexample_rounding_to_zero :
    (1 : ℚ)/1000 ≠ 0 ∧ (0 : ℚ) < 1/1000 ∧
    (Calculator.calculateSavings (.num 0) (.num (1/1000))).savedKg = .num 0 := by
  refine ⟨by norm_num, by norm_num, ?_⟩
  unfold Calculator.calculateSavings
  simp only [JsNum.sub, round2_num, sub_zero]
  rw [round2Q_eq (1/1000) 0 (by norm_num) (by norm_num)]
  norm_num

/-- C8 amended: `calculateSavings(emission, baseline).savedKg` equals
`baseline - emission` rounded to two decimals, and it is strictly
positive iff `baseline - emission ≥ 0.005` (the smallest difference that
rounds to a positive two-decimal value) — not iff `emission < baseline`;
a negative `savedKg` is still returned as a valid result, not an
error. -/
theorem c8_amended_savedKg_pos_iff_threshold (em b : ℚ) (hb : b ≠ 0) :
    (Calculator.calculateSavings (.num em) (.num b)).savedKg = .num (round2Q (b - em)) ∧
    (0 < round2Q (b - em) ↔ 1/200 ≤ b - em) := by
  constructor
  · unfold Calculator.calculateSavings
    simp [JsNum.sub, round2_num]
  · exact round2Q_pos_iff

/-- Witness for the amended C8 at emission 1, baseline 2. -/
theorem c8_amended_witness :
    (2 : ℚ) ≠ 0 ∧
    ((Calculator.calculateSavings (.num 1) (.num 2)).savedKg = .num (round2Q (2 - 1)) ∧
     (0 < round2Q ((2 : ℚ) - 1) ↔ 1/200 ≤ (2 : ℚ) - 1)) :=
  ⟨by norm_num, c8_amended_savedKg_pos_iff_threshold 1 2 (by norm_num)⟩

theorem finLe_num {a b : ℚ} : finLe (.num a) (.num b) ↔ a ≤ b := by
  constructor
  · rintro ⟨x, y, hx, hy, hxy⟩
    obtain rfl : a = x := by injection hx
    obtain rfl : b = y := by injection hy
    exact hxy
  · intro h
    exact ⟨a, b, rfl, rfl, h⟩

/-- Evaluation of the percentage field when the car baseline is 0: the
division produces `NaN` (for a zero numerator) or a signed infinity, and
rounding preserves them. -/
theorem pct_of_zero_car (x : ℚ) :
    round2 ((JsNum.div (.num x) (.num 0)).mul (.num 100)) = .nan ∨
    round2 ((JsNum.div (.num x) (.num 0)).mul (.num 100)) = .inf ∨
    round2 ((JsNum.div (.num x) (.num 0)).mul (.num 100)) = .ninf := by
  rcases lt_trichotomy x 0 with h | h | h
  · right; right
    norm_num [JsNum.div, JsNum.mul, h.ne, not_lt.mpr h.le, round2_ninf]
  · left
    subst h
    norm_num [JsNum.div, JsNum.nan_mul, round2_nan]
  · right; left
    norm_num [JsNum.div, JsNum.mul, h, h.ne', round2_inf]

/-- All four percentages of `calculateAllModes(0)` are `NaN`: at distance
0 every emission is 0, so every entry divides by the zero car
baseline. -/
theorem allModesPctZero :
    (Calculator.calculateAllModes (.num 0)).map (fun e => e.percentageVsCar) =
      [.nan, .nan, .nan, .nan] := by
  have hb := calculateEmission_zero "bicycle" 0 rfl
  have hc := calculateEmission_zero "car" 0.12 rfl
  have hu := calculateEmission_zero "bus" 0.089 rfl
  have ht := calculateEmission_zero "truck" 0.96 rfl
  have hpct : round2 ((JsNum.div (.num 0) (.num 0)).mul (.num 100)) = .nan := by
    simp [JsNum.div, JsNum.nan_mul, round2_nan]
  have hle : Calculator.sortLe (.num 0) (.num 0) = true := by
    simp [Calculator.sortLe, JsNum.sub]
  simp [Calculator.calculateAllModes, EMISSION_FACTORS, hb, hc, hu, ht, hpct,
    insertionSort, insertSorted, hle]

/-- Counterexample to C1 as stated: at distance 0 (zero car baseline)
every `percentageVsCar` returned by `calculateAllModes` is `NaN` — there
is no division-by-zero guard and no 0/"undefined"-sentinel policy. -/
theorem c1_counterexample_nan_at_zero_distance :
    (Calculator.calculateAllModes (.num 0)).map (fun e => e.percentageVsCar) =
      [.nan, .nan, .nan, .nan] :=
  allModesPctZero

/-- C1 amended: whenever the car baseline emission is 0, every
`percentageVsCar` produced by `calculateAllModes` is `NaN` or a signed
infinity — never 0 nor a flagged sentinel. -/
theorem c1_amended_unguarded_division (d : ℚ) (p : JsNum)
    (hcar : Calculator.calculateEmission (.num d) "car" = .num 0)
    (hp : p ∈ (Calculator.calculateAllModes (.num d)).map (fun e => e.percentageVsCar)) :
    p = .nan ∨ p = .inf ∨ p = .ninf := by
  rw [List.mem_map] at hp
  obtain ⟨entry, hmem, hpe⟩ := hp
  subst hpe
  simp only [Calculator.calculateAllModes] at hmem
  rw [mem_insertionSort] at hmem
  simp only [EMISSION_FACTORS, List.map_cons, List.map_nil, List.mem_cons,
    List.not_mem_nil, or_false] at hmem
  rcases hmem with h | h | h | h <;> subst h
  · rw [show (⟨"bicycle", Calculator.calculateEmission (.num d) "bicycle",
        round2 ((JsNum.div (Calculator.calculateEmission (.num d) "bicycle")
          (Calculator.calculateEmission (.num d) "car")).mul (.num 100))⟩ :
        Calculator.ModeEntry).percentageVsCar =
        round2 ((JsNum.div (Calculator.calculateEmission (.num d) "bicycle")
          (Calculator.calculateEmission (.num d) "car")).mul (.num 100)) from rfl,
      hcar, calculateEmission_num d "bicycle" 0 rfl]
    exact pct_of_zero_car _
  · rw [show (⟨"car", Calculator.calculateEmission (.num d) "car",
        round2 ((JsNum.div (Calculator.calculateEmission (.num d) "car")
          (Calculator.calculateEmission (.num d) "car")).mul (.num 100))⟩ :
        Calculator.ModeEntry).percentageVsCar =
        round2 ((JsNum.div (Calculator.calculateEmission (.num d) "car")
          (Calculator.calculateEmission (.num d) "car")).mul (.num 100)) from rfl,
      hcar]
    exact pct_of_zero_car 0
  · rw [show (⟨"bus", Calculator.calculateEmission (.num d) "bus",
        round2 ((JsNum.div (Calculator.calculateEmission (.num d) "bus")
          (Calculator.calculateEmission (.num d) "car")).mul (.num 100))⟩ :
        Calculator.ModeEntry).percentageVsCar =
        round2 ((JsNum.div (Calculator.calculateEmission (.num d) "bus")
          (Calculator.calculateEmission (.num d) "car")).mul (.num 100)) from rfl,
      hcar, calculateEmission_num d "bus" 0.089 rfl]
    exact pct_of_zero_car _
  · rw [show (⟨"truck", Calculator.calculateEmission (.num d) "truck",
        round2 ((JsNum.div (Calculator.calculateEmission (.num d) "truck")
          (Calculator.calculateEmission (.num d) "car")).mul (.num 100))⟩ :
        Calculator.ModeEntry).percentageVsCar =
        round2 ((JsNum.div (Calculator.calculateEmission (.num d) "truck")
          (Calculator.calculateEmission (.num d) "car")).mul (.num 100)) from rfl,
      hcar, calculateEmission_num d "truck" 0.96 rfl]
    exact pct_of_zero_car _

/-- Witness for the amended C1: at distance 0 the hypotheses hold for
the value `NaN` found among the returned percentages. -/
theorem c1_amended_witness :
    JsNum.nan ∈ (Calculator.calculateAllModes (.num 0)).map (fun e => e.percentageVsCar) ∧
    (JsNum.nan = .nan ∨ JsNum.nan = .inf ∨ JsNum.nan = .ninf) :=
  ⟨by rw [allModesPctZero]; simp,
   c1_amended_unguarded_division 0 .nan (calculateEmission_zero "car" 0.12 rfl)
     (by rw [allModesPctZero]; simp)⟩

/-- Position of a mode in the enumeration order of
`CONFIG.EMISSION_FACTORS` (JavaScript `for...in` follows the object's
insertion order for string keys). -/
def modeIndex (m : String) : ℕ := (EMISSION_FACTORS.map Prod.fst).indexOf m

theorem sortLe_num (a b : ℚ) : Calculator.sortLe (.num a) (.num b) = decide (a ≤ b) := by
  simp only [Calculator.sortLe, JsNum.sub]
  rw [decide_eq_decide]
  exact sub_nonpos

/-- The stable sort keeps an already-ordered four-element list. -/
theorem insertionSort_four_tie {α : Type} {le : α → α → Bool} {a b c d : α}
    (hcd : le c d = true) (hbc : le b c = true) (hab : le a b = true) :
    insertionSort le [a, b, c, d] = [a, b, c, d] := by
  simp [insertionSort, insertSorted, hcd, hbc, hab]

/-- The stable sort swaps the middle pair when the second element
compares strictly greater than the third. -/
theorem insertionSort_four_swap {α : Type} {le : α → α → Bool} {a b c d : α}
    (hcd : le c d = true) (hbc : le b c = false) (hbd : le b d = true) (hac : le a c = true) :
    insertionSort le [a, b, c, d] = [a, c, b, d] := by
  simp [insertionSort, insertSorted, hcd, hbc, hbd, hac]

theorem modeIndex_bicycle : modeIndex "bicycle" = 0 := rfl

theorem modeIndex_car : modeIndex "car" = 1 := rfl

theorem modeIndex_bus : modeIndex "bus" = 2 := rfl

theorem modeIndex_truck : modeIndex "truck" = 3 := rfl

/-- C5: for every positive finite distance, `calculateAllModes` returns
its entries sorted ascending by emission, the zero-factor mode bicycle
(the only zero-factor mode configured) ranks first with emission 0, and
any two entries with equal emissions appear in the enumeration order of
`CONFIG.EMISSION_FACTORS` (the sort is stable). -/
theorem c5_compareModes_sorted_ties_enum_order (d : ℚ) (hd : 0 < d) :
    List.Chain' (fun x y => finLe x.emission y.emission) (Calculator.calculateAllModes (.num d)) ∧
    (Calculator.calculateAllModes (.num d)).head?.map (fun e => (e.mode, e.emission)) =
      some ("bicycle", .num 0) ∧
    List.Pairwise (fun x y => x.emission = y.emission → modeIndex x.mode < modeIndex y.mode)
      (Calculator.calculateAllModes (.num d)) := by
  have hb : Calculator.calculateEmission (.num d) "bicycle" = .num 0 := by
    rw [calculateEmission_num d "bicycle" 0 rfl, mul_zero, round2Q_zero]
  have hc := calculateEmission_num d "car" 0.12 rfl
  have hu := calculateEmission_num d "bus" 0.089 rfl
  have ht := calculateEmission_num d "truck" 0.96 rfl
  set ec := round2Q (d * 0.12) with hec
  set eu := round2Q (d * 0.089) with heu
  set et := round2Q (d * 0.96) with het
  have h0u : (0 : ℚ) ≤ eu := by
    have h := round2Q_mono (mul_nonneg hd.le (by norm_num : (0:ℚ) ≤ 0.089))
    rwa [round2Q_zero] at h
  have huc : eu ≤ ec :=
    round2Q_mono (mul_le_mul_of_nonneg_left (by norm_num : (0.089:ℚ) ≤ 0.12) hd.le)
  have hct : ec ≤ et :=
    round2Q_mono (mul_le_mul_of_nonneg_left (by norm_num : (0.12:ℚ) ≤ 0.96) hd.le)
  simp only [Calculator.calculateAllModes, EMISSION_FACTORS, List.map_cons, List.map_nil,
    hb, hc, hu, ht]
  rcases eq_or_lt_of_le huc with heq | hlt
  · rw [insertionSort_four_tie
      (by simp only [sortLe_num]; exact decide_eq_true (le_trans huc hct))
      (by simp only [sortLe_num]; exact decide_eq_true heq.ge)
      (by simp only [sortLe_num]; exact decide_eq_true (le_trans h0u huc))]
    refine ⟨?_, rfl, ?_⟩
    · simp only [List.chain'_cons, List.chain'_singleton, and_true, finLe_num]
      exact ⟨le_trans h0u huc, heq.ge, le_trans huc hct⟩
    · refine List.Pairwise.cons ?_ (List.Pairwise.cons ?_ (List.Pairwise.cons ?_
        (List.Pairwise.cons (fun y hy => absurd hy (List.not_mem_nil y)) List.Pairwise.nil)))
      · intro y hy
        simp only [List.mem_cons, List.not_mem_nil, or_false] at hy
        rcases hy with rfl | rfl | rfl <;> intro h <;>
          norm_num [modeIndex_bicycle, modeIndex_car, modeIndex_bus, modeIndex_truck]
      · intro y hy
        simp only [List.mem_cons, List.not_mem_nil, or_false] at hy
        rcases hy with rfl | rfl <;> intro h <;>
          norm_num [modeIndex_car, modeIndex_bus, modeIndex_truck]
      · intro y hy
        simp only [List.mem_cons, List.not_mem_nil, or_false] at hy
        rcases hy with rfl
        intro h
        norm_num [modeIndex_bus, modeIndex_truck]
  · rw [insertionSort_four_swap
      (by simp only [sortLe_num]; exact decide_eq_true (le_trans huc hct))
      (by simp only [sortLe_num]; exact decide_eq_false (not_le.mpr hlt))
      (by simp only [sortLe_num]; exact decide_eq_true hct)
      (by simp only [sortLe_num]; exact decide_eq_true h0u)]
    refine ⟨?_, rfl, ?_⟩
    · simp only [List.chain'_cons, List.chain'_singleton, and_true, finLe_num]
      exact ⟨h0u, hlt.le, hct⟩
    · refine List.Pairwise.cons ?_ (List.Pairwise.cons ?_ (List.Pairwise.cons ?_
        (List.Pairwise.cons (fun y hy => absurd hy (List.not_mem_nil y)) List.Pairwise.nil)))
      · intro y hy
        simp only [List.mem_cons, List.not_mem_nil, or_false] at hy
        rcases hy with rfl | rfl | rfl <;> intro h <;>
          norm_num [modeIndex_bicycle, modeIndex_car, modeIndex_bus, modeIndex_truck]
      · intro y hy
        simp only [List.mem_cons, List.not_mem_nil, or_false] at hy
        rcases hy with rfl | rfl
        · intro h
          have hh : eu = ec := by injection h
          exact absurd hh (ne_of_lt hlt)
        · intro h
          norm_num [modeIndex_bus, modeIndex_truck]
      · intro y hy
        simp only [List.mem_cons, List.not_mem_nil, or_false] at hy
        rcases hy with rfl
        intro h
        norm_num [modeIndex_car, modeIndex_truck]

/-- Witness for C5 at distance 100. -/
theorem c5_witness :
    (0 : ℚ) < 100 ∧
    (List.Chain' (fun x y => finLe x.emission y.emission)
        (Calculator.calculateAllModes (.num 100)) ∧
     (Calculator.calculateAllModes (.num 100)).head?.map (fun e => (e.mode, e.emission)) =
        some ("bicycle", .num 0) ∧
     List.Pairwise (fun x y => x.emission = y.emission → modeIndex x.mode < modeIndex y.mode)
        (Calculator.calculateAllModes (.num 100))) :=
  ⟨by norm_num, c5_compareModes_sorted_ties_enum_order 100 (by norm_num)⟩

/-- `ROUTES_DATA` from routes-data.js: city name → (lat, lng), in the
object's insertion order.  The decimal literals are exact. -/
def ROUTES_DATA : List (String × ℚ × ℚ) :=
  [("São Paulo", -23.5505, -46.6333),
   ("Rio de Janeiro", -22.9068, -43.1729),
   ("Belo Horizonte", -19.9167, -43.9345),
   ("Salvador", -12.9714, -38.5014),
   ("Brasília", -15.8267, -47.8711),
   ("Curitiba", -25.4284, -49.2733),
   ("Manaus", -3.1190, -60.0217),
   ("Belém", -1.4554, -48.5039),
   ("Recife", -8.0476, -34.8770),
   ("Fortaleza", -3.7319, -38.5267),
   ("Porto Alegre", -30.0346, -51.2177),
   ("Goiânia", -15.7942, -48.0766),
   ("Campinas", -22.9068, -47.0616),
   ("Santos", -23.9608, -46.3338),
   ("Sorocaba", -23.5015, -47.4584)]

/-- The property keys an object literal inherits from `Object.prototype`
(ES2023, the complete standard list): a property access on `ROUTES_DATA`
with one of these names finds the inherited member when the name is not
an own key, and every such member's value (a function, or the prototype
object itself for `__proto__`) is truthy. -/
def OBJECT_PROTOTYPE_KEYS : List String :=
  ["constructor", "hasOwnProperty", "isPrototypeOf", "propertyIsEnumerable",
   "toLocaleString", "toString", "valueOf", "__proto__",
   "__defineGetter__", "__defineSetter__", "__lookupGetter__", "__lookupSetter__"]

/-- Result of the JavaScript property access `ROUTES_DATA[name]`:
an own city record (with `lat`/`lng` defined), a truthy member inherited
from `Object.prototype` (whose `lat`/`lng` are `undefined`), or
`undefined` (the only falsy case). -/
inductive PropValue where
  | coords (c : ℚ × ℚ)
  | inherited
  | undefined
deriving DecidableEq

/-- `ROUTES_DATA[name]`: own key first, then the prototype chain. -/
def routesDataGet (name : String) : PropValue :=
  match ROUTES_DATA.lookup name with
  | some c => .coords c
  | none => if name ∈ OBJECT_PROTOTYPE_KEYS then .inherited else .undefined

/-- A JavaScript number that is either a finite real or `NaN` (the
values `findDistance` can return when it does not return `null`). -/
inductive JsReal where
  | num (x : ℝ)
  | nan

/-- Code-unit comparison of character lists, modelling the default
comparator of JavaScript `Array.prototype.sort` on strings (all the city
names lie in the Basic Multilingual Plane, where UTF-16 code-unit order
coincides with code-point order). -/
def charListLt : List Char → List Char → Bool
  | [], [] => false
  | [], _ :: _ => true
  | _ :: _, [] => false
  | a :: as, b :: bs =>
    if a.toNat < b.toNat then true
    else if b.toNat < a.toNat then false
    else charListLt as bs

/-- JavaScript default string comparison `a < b`. -/
def strLt (a b : String) : Bool := charListLt a.data b.data

namespace RoutesDB

/-- `RoutesDB.getAllCities()`: `Object.keys(ROUTES_DATA).sort()` — the
keys in insertion order, sorted with the default (code-unit) string
comparator. -/
def getAllCities : List String :=
  insertionSort (fun a b => !(strLt b a)) (ROUTES_DATA.map Prod.fst)

/-- `Math.atan2(y, x)` on real arguments (the single-zero model: the
`x = 0` and `x < 0` branches follow the IEEE convention for `+0`). -/
noncomputable def jsAtan2 (y x : ℝ) : ℝ :=
  if 0 < x then Real.arctan (y / x)
  else if x = 0 then (if 0 < y then Real.pi / 2 else if y < 0 then -(Real.pi / 2) else 0)
  else if 0 ≤ y then Real.arctan (y / x) + Real.pi else Real.arctan (y / x) - Real.pi

/-- `RoutesDB.haversineDistance(lat1, lon1, lat2, lon2)` from
routes-data.js, transcribed term by term. -/
noncomputable def haversineDistance (lat1 lon1 lat2 lon2 : ℝ) : ℝ :=
  let R : ℝ := 6371
  let dLat := (lat2 - lat1) * Real.pi / 180
  let dLon := (lon2 - lon1) * Real.pi / 180
  let a :=
    Real.sin (dLat / 2) * Real.sin (dLat / 2) +
      Real.cos (lat1 * Real.pi / 180) * Real.cos (lat2 * Real.pi / 180) *
        Real.sin (dLon / 2) * Real.sin (dLon / 2)
  let c := 2 * jsAtan2 (Real.sqrt a) (Real.sqrt (1 - a))
  R * c

/-- `Math.round(x * 100) / 100` on a real value. -/
noncomputable def round2R (x : ℝ) : ℝ := ((⌊x * 100 + 1/2⌋ : ℤ) : ℝ) / 100

/-- `RoutesDB.findDistance(origin, destination)`.  The guard
`if (!ROUTES_DATA[origin] || !ROUTES_DATA[destination]) return null`
returns `null` (modelled as `none`) exactly when a property access
yields `undefined`, the only falsy outcome; an inherited
`Object.prototype` member passes the guard.  With two own records the
result is the rounded haversine distance.  When an operand is an
inherited member its `lat`/`lng` are `undefined`, so `dLat`/`dLon` are
`NaN`, and ECMAScript propagates `NaN` through `Math.sin`, `Math.cos`,
`Math.sqrt`, `Math.atan2`, `Math.round` and every arithmetic operation:
the returned value is `NaN`, not `null`. -/
noncomputable def findDistance (origin destination : String) : Option JsReal :=
  match routesDataGet origin, routesDataGet destination with
  | .undefined, _ => none
  | _, .undefined => none
  | .coords o, .coords d => some (.num (round2R (haversineDistance o.1 o.2 d.1 d.2)))
  | _, _ => some .nan

end RoutesDB

/-- The haversine formula exactly as the spec words it: angles converted
from degrees to radians, `a = sin²(Δlat/2) + cos(lat1)·cos(lat2)·sin²(Δlon/2)`,
`c = 2·atan2(√a, √(1−a))`, `distance = 6371·c`. -/
noncomputable def haversineSpec (lat1 lon1 lat2 lon2 : ℝ) : ℝ :=
  let dLat := (lat2 - lat1) * Real.pi / 180
  let dLon := (lon2 - lon1) * Real.pi / 180
  let a :=
    Real.sin (dLat / 2) ^ 2 +
      Real.cos (lat1 * Real.pi / 180) * Real.cos (lat2 * Real.pi / 180) * Real.sin (dLon / 2) ^ 2
  let c := 2 * RoutesDB.jsAtan2 (Real.sqrt a) (Real.sqrt (1 - a))
  6371 * c

theorem haversine_eq_spec (lat1 lon1 lat2 lon2 : ℝ) :
    RoutesDB.haversineDistance lat1 lon1 lat2 lon2 = haversineSpec lat1 lon1 lat2 lon2 := by
  simp only [RoutesDB.haversineDistance, haversineSpec]
  ring_nf

theorem haversine_symm (lat1 lon1 lat2 lon2 : ℝ) :
    RoutesDB.haversineDistance lat1 lon1 lat2 lon2 =
      RoutesDB.haversineDistance lat2 lon2 lat1 lon1 := by
  simp only [RoutesDB.haversineDistance]
  have h1 : Real.sin ((lat1 - lat2) * Real.pi / 180 / 2) =
      -Real.sin ((lat2 - lat1) * Real.pi / 180 / 2) := by
    rw [show (lat1 - lat2) * Real.pi / 180 / 2 = -((lat2 - lat1) * Real.pi / 180 / 2) by ring,
      Real.sin_neg]
  have h2 : Real.sin ((lon1 - lon2) * Real.pi / 180 / 2) =
      -Real.sin ((lon2 - lon1) * Real.pi / 180 / 2) := by
    rw [show (lon1 - lon2) * Real.pi / 180 / 2 = -((lon2 - lon1) * Real.pi / 180 / 2) by ring,
      Real.sin_neg]
  rw [h1, h2]
  ring_nf

theorem haversine_self (lat lon : ℝ) : RoutesDB.haversineDistance lat lon lat lon = 0 := by
  simp only [RoutesDB.haversineDistance]
  rw [show (lat - lat) * Real.pi / 180 / 2 = 0 by ring,
    show (lon - lon) * Real.pi / 180 / 2 = 0 by ring, Real.sin_zero]
  norm_num [RoutesDB.jsAtan2, Real.arctan_zero]

theorem round2R_zero : RoutesDB.round2R 0 = 0 := by
  unfold RoutesDB.round2R
  rw [show (0 : ℝ) * 100 + 1/2 = 1/2 by norm_num]
  rw [show (⌊(1/2 : ℝ)⌋ : ℤ) = 0 by rw [Int.floor_eq_iff] <;> norm_num]
  norm_num

theorem routesDataGet_undef_iff (n : String) :
    routesDataGet n = .undefined ↔
      (ROUTES_DATA.lookup n = none ∧ n ∉ OBJECT_PROTOTYPE_KEYS) := by
  unfold routesDataGet
  cases h : ROUTES_DATA.lookup n
  · simp only [h, true_and]
    split
    · simp [*]
    · simp [*]
  · simp [h]

/-- Counterexample to C2 as stated: `"constructor"` has no registry
entry, yet `findDistance("constructor", "Santos")` returns `NaN` — a
number, not the `null` sentinel — because the inherited
`Object.prototype.constructor` is truthy and the null guard is
skipped. -/
theorem c2_counterexample_prototype_key :
    ROUTES_DATA.lookup "constructor" = none ∧
    RoutesDB.findDistance "constructor" "Santos" = some .nan ∧
    some JsReal.nan ≠ (none : Option JsReal) := by
  refine ⟨rfl, rfl, ?_⟩
  intro h
  exact Option.noConfusion h

/-- C2 amended: `findDistance` returns the `null` sentinel, without
throwing, iff at least one of the two names is neither an own key of the
registry nor an inherited `Object.prototype` member name; a name whose
only match is an inherited prototype member (e.g. `"constructor"`)
skips the guard and produces `NaN` instead of `null`. -/
theorem c2_amended_null_iff_truly_absent (o dst : String) :
    (RoutesDB.findDistance o dst = none ↔
      ((ROUTES_DATA.lookup o = none ∧ o ∉ OBJECT_PROTOTYPE_KEYS) ∨
       (ROUTES_DATA.lookup dst = none ∧ dst ∉ OBJECT_PROTOTYPE_KEYS))) ∧
    (∀ cd : ℚ × ℚ, ROUTES_DATA.lookup o = none → o ∈ OBJECT_PROTOTYPE_KEYS →
      ROUTES_DATA.lookup dst = some cd → RoutesDB.findDistance o dst = some .nan) := by
  constructor
  · have key : RoutesDB.findDistance o dst = none ↔
        (routesDataGet o = .undefined ∨ routesDataGet dst = .undefined) := by
      unfold RoutesDB.findDistance
      cases routesDataGet o <;> cases routesDataGet dst <;> simp
    rw [key, routesDataGet_undef_iff, routesDataGet_undef_iff]
  · intro cd hnone hmem hdst
    have h1 : routesDataGet o = .inherited := by
      simp [routesDataGet, hnone, hmem]
    have h2 : routesDataGet dst = .coords cd := by
      simp [routesDataGet, hdst]
    unfold RoutesDB.findDistance
    rw [h1, h2]

/-- Witness for the amended C2: origin `"constructor"` (a prototype
key), destination `"Santos"` (registered). -/
theorem c2_amended_witness :
    (RoutesDB.findDistance "constructor" "Santos" = none ↔
      ((ROUTES_DATA.lookup "constructor" = none ∧ "constructor" ∉ OBJECT_PROTOTYPE_KEYS) ∨
       (ROUTES_DATA.lookup "Santos" = none ∧ "Santos" ∉ OBJECT_PROTOTYPE_KEYS))) ∧
    RoutesDB.findDistance "constructor" "Santos" = some .nan :=
  ⟨(c2_amended_null_iff_truly_absent "constructor" "Santos").1,
   (c2_amended_null_iff_truly_absent "constructor" "Santos").2
     (-23.9608, -46.3338) rfl (by decide) rfl⟩

/-- C3: for registered cities, `findDistance` equals the haversine
great-circle distance of the spec's formula (Earth radius 6371, degrees
converted to radians, `c = 2·atan2(√a, √(1−a))`), rounded to two decimal
places. -/
theorem c3_findDistance_haversine_spec (o dst : String) (co cd : ℚ × ℚ)
    (ho : ROUTES_DATA.lookup o = some co) (hd : ROUTES_DATA.lookup dst = some cd) :
    RoutesDB.findDistance o dst =
      some (.num (RoutesDB.round2R
        (haversineSpec (co.1 : ℝ) (co.2 : ℝ) (cd.1 : ℝ) (cd.2 : ℝ)))) := by
  have g1 : routesDataGet o = .coords co := by simp [routesDataGet, ho]
  have g2 : routesDataGet dst = .coords cd := by simp [routesDataGet, hd]
  simp only [RoutesDB.findDistance, g1, g2, haversine_eq_spec]

/-- Witness for C3: São Paulo → Rio de Janeiro. -/
theorem c3_witness :
    RoutesDB.findDistance "São Paulo" "Rio de Janeiro" =
      some (.num (RoutesDB.round2R (haversineSpec ((-23.5505 : ℚ) : ℝ) ((-46.6333 : ℚ) : ℝ)
        ((-22.9068 : ℚ) : ℝ) ((-43.1729 : ℚ) : ℝ)))) :=
  c3_findDistance_haversine_spec "São Paulo" "Rio de Janeiro"
    (-23.5505, -46.6333) (-22.9068, -43.1729) rfl rfl

/-- C4: for registered cities, `findDistance` is symmetric, and the
distance from a city to itself is 0. -/
theorem c4_findDistance_symm_and_self_zero (A B : String) (cA cB : ℚ × ℚ)
    (hA : ROUTES_DATA.lookup A = some cA) (hB : ROUTES_DATA.lookup B = some cB) :
    RoutesDB.findDistance A B = RoutesDB.findDistance B A ∧
    RoutesDB.findDistance A A = some (.num 0) := by
  have gA : routesDataGet A = .coords cA := by simp [routesDataGet, hA]
  have gB : routesDataGet B = .coords cB := by simp [routesDataGet, hB]
  constructor
  · simp only [RoutesDB.findDistance, gA, gB]
    rw [haversine_symm]
  · simp only [RoutesDB.findDistance, gA]
    rw [haversine_self, round2R_zero]

/-- Witness for C4: Santos and Recife. -/
theorem c4_witness :
    RoutesDB.findDistance "Santos" "Recife" = RoutesDB.findDistance "Recife" "Santos" ∧
    RoutesDB.findDistance "Santos" "Santos" = some (.num 0) :=
  c4_findDistance_symm_and_self_zero "Santos" "Recife"
    (-23.9608, -46.3338) (-8.0476, -34.8770) rfl rfl

/-- C6: `getAllCities` returns exactly the registered city names
(a permutation of the registry keys — "all", and derived purely from
them) in strictly increasing default string order (code-unit
lexicographic, JavaScript's default sort). -/
theorem c6_getAllCities_sorted_perm :
    List.Pairwise (fun a b => strLt a b = true) RoutesDB.getAllCities ∧
    RoutesDB.getAllCities.Perm (ROUTES_DATA.map Prod.fst) := by
  constructor
  · decide
  · decide

end CarbonCalc
